import Mathlib

/-!
Shallow embedding of the Eden PS5 port (src_ps5): the GNM graphics wrapper
with its development-mode GPU bump allocator, the triple-buffered renderer
frame lifecycle, the application main loop and emulation state machine, the
etaHEN plugin IPC, and the audio manager.  Machine integers are modelled as
`Nat` with explicit reductions modulo `2 ^ 32` / `2 ^ 64` exactly where the
C++ types (`uint32_t`, `uint64_t`, `size_t`) wrap or truncate.
-/

/-- Modulus of a 32-bit unsigned integer (`uint32_t`). -/
def U32 : Nat := 2 ^ 32

/-- Modulus of a 64-bit unsigned integer (`uint64_t` / `size_t`). -/
def U64 : Nat := 2 ^ 64

theorem U32_num : U32 = 4294967296 := by norm_num [U32]

theorem U64_num : U64 = 18446744073709551616 := by norm_num [U64]

/-- State of `GNMWrapper::Impl` (gnm_wrapper.cpp): the GNM handles and the
development-mode bump-allocator state. -/
structure GNMImpl where
  device_handle : Nat
  context_handle : Nat
  command_queue_handle : Nat
  gpu_memory_base : Nat
  gpu_memory_offset : Nat
deriving Repr, DecidableEq

/-- The freshly constructed `GNMWrapper::Impl`: zero handles, example base
address `0x100000000`, offset `0`. -/
def GNMImpl.initImpl : GNMImpl :=
  { device_handle := 0
    context_handle := 0
    command_queue_handle := 0
    gpu_memory_base := 0x100000000
    gpu_memory_offset := 0 }

/-- The C++ value of `~(alignment - 1)`: `alignment` has type `uint32_t`, so
both the subtraction and the complement happen at 32 bits; the result is then
zero-extended when it meets the 64-bit offset in the `&`. -/
def allocMask (alignment : Nat) : Nat :=
  (U32 - 1) - ((alignment + (U32 - 1)) % U32)

/-- `GNMWrapper::Impl::AllocateMemory` (gnm_wrapper.cpp, lines 28-34) with
exact C++ integer semantics: the offset arithmetic is `uint64_t`, while the
mask `~(alignment - 1)` is only 32 bits wide. -/
def GNMImpl.AllocateMemory (impl : GNMImpl) (size alignment : Nat) : Nat × GNMImpl :=
  let aligned_offset :=
    ((impl.gpu_memory_offset + alignment + (U64 - 1)) % U64) &&& allocMask alignment
  let address := (impl.gpu_memory_base + aligned_offset) % U64
  (address, { impl with gpu_memory_offset := (aligned_offset + size) % U64 })

/-- The specification's description of the alignment step: the offset rounded
up to the next multiple of `a`. -/
def roundUpTo (o a : Nat) : Nat := (o + a - 1) / a * a

theorem roundUpTo_bounds (o a : Nat) (ha : 0 < a) :
    o ≤ roundUpTo o a ∧ roundUpTo o a ≤ o + a - 1 := by
  have h : (o + a - 1) / a * a + (o + a - 1) % a = o + a - 1 := Nat.div_add_mod' _ _
  have hm : (o + a - 1) % a < a := Nat.mod_lt _ ha
  unfold roundUpTo
  omega

theorem dvd_roundUpTo (o a : Nat) : a ∣ roundUpTo o a := by
  unfold roundUpTo
  exact dvd_mul_left a _

theorem land_align (k x : Nat) (hk : k ≤ 32) (hx : x < U32) :
    x &&& (U32 - 2 ^ k) = x / 2 ^ k * 2 ^ k := by
  have hmask : U32 - 2 ^ k = (2 ^ (32 - k) - 1) <<< k := by
    have hkk : 32 - k + k = 32 := by omega
    rw [Nat.shiftLeft_eq, Nat.sub_mul, ← Nat.pow_add, Nat.one_mul, hkk]
    unfold U32
    rfl
  have hx32 : ∀ i, 32 ≤ i → x.testBit i = false := by
    intro i hi
    have h2 : U32 ≤ 2 ^ i := by
      unfold U32
      exact Nat.pow_le_pow_right (by omega) hi
    exact Nat.testBit_lt_two_pow (lt_of_lt_of_le hx h2)
  have hdiv : x / 2 ^ k * 2 ^ k = (x >>> k) <<< k := by
    rw [Nat.shiftRight_eq_div_pow, Nat.shiftLeft_eq]
  rw [hmask, hdiv]
  apply Nat.eq_of_testBit_eq
  intro i
  rw [Nat.testBit_land, Nat.testBit_shiftLeft, Nat.testBit_shiftLeft,
    Nat.testBit_shiftRight, Nat.testBit_two_pow_sub_one]
  rcases Nat.lt_or_ge i k with h1 | h1
  · have hd : decide (i ≥ k) = false := by simp [Nat.not_le.mpr h1]
    rw [hd]
    simp
  · have hd : decide (i ≥ k) = true := by simp [h1]
    have hki : k + (i - k) = i := by omega
    rw [hd, hki]
    rcases Nat.lt_or_ge i 32 with h2 | h2
    · have hd2 : decide (i - k < 32 - k) = true := by
        simp only [decide_eq_true_eq]
        omega
      rw [hd2]
      simp
    · have hf : x.testBit i = false := hx32 i h2
      have hd2 : decide (i - k < 32 - k) = false := by
        simp only [decide_eq_false_iff_not]
        omega
      rw [hf, hd2]
      simp

theorem allocMask_pow (k : Nat) (hk : k < 32) : allocMask (2 ^ k) = U32 - 2 ^ k := by
  have h1 : (1:Nat) ≤ 2 ^ k := Nat.one_le_two_pow
  have h2 : 2 ^ k ≤ 2 ^ 31 := Nat.pow_le_pow_right (by omega) (by omega)
  have h31 : (2:Nat) ^ 31 = 2147483648 := by norm_num
  have hU : U32 = 4294967296 := U32_num
  have hsplit : 2 ^ k + (U32 - 1) = (2 ^ k - 1) + U32 := by omega
  unfold allocMask
  rw [hsplit, Nat.add_mod_right, Nat.mod_eq_of_lt (by omega)]
  omega

theorem AllocateMemory_eq (impl : GNMImpl) (size k : Nat) (hk : k < 32)
    (hfit : impl.gpu_memory_offset + size + 2 ^ k ≤ U32) :
    impl.AllocateMemory size (2 ^ k) =
      ((impl.gpu_memory_base + roundUpTo impl.gpu_memory_offset (2 ^ k)) % U64,
       { impl with gpu_memory_offset := roundUpTo impl.gpu_memory_offset (2 ^ k) + size }) := by
  have h1 : (1:Nat) ≤ 2 ^ k := Nat.one_le_two_pow
  have hU32 : U32 = 4294967296 := U32_num
  have hU64 : U64 = 18446744073709551616 := U64_num
  have hinner : (impl.gpu_memory_offset + 2 ^ k + (U64 - 1)) % U64 =
      impl.gpu_memory_offset + 2 ^ k - 1 := by
    have hsplit : impl.gpu_memory_offset + 2 ^ k + (U64 - 1) =
        (impl.gpu_memory_offset + 2 ^ k - 1) + U64 := by omega
    rw [hsplit, Nat.add_mod_right, Nat.mod_eq_of_lt (by omega)]
  have hland : (impl.gpu_memory_offset + 2 ^ k - 1) &&& (U32 - 2 ^ k) =
      roundUpTo impl.gpu_memory_offset (2 ^ k) :=
    land_align k _ (by omega) (by omega)
  have hbounds := roundUpTo_bounds impl.gpu_memory_offset (2 ^ k) (by omega)
  have hoffmod : (roundUpTo impl.gpu_memory_offset (2 ^ k) + size) % U64 =
      roundUpTo impl.gpu_memory_offset (2 ^ k) + size :=
    Nat.mod_eq_of_lt (by omega)
  unfold GNMImpl.AllocateMemory
  simp only [allocMask_pow k hk, hinner, hland, hoffmod]

/-- A sequence of allocator calls: for each request `(size, alignment)` the
returned address is recorded together with the request. -/
def allocRun (impl : GNMImpl) : List (Nat × Nat) → List (Nat × Nat × Nat) × GNMImpl
  | [] => ([], impl)
  | r :: rest =>
    let step := impl.AllocateMemory r.1 r.2
    let restRun := allocRun step.2 rest
    ((step.1, r.1, r.2) :: restRun.1, restRun.2)

/-- Total size-plus-alignment footprint of a request list; keeping it at or
below `2 ^ 32` keeps the 32-bit alignment mask from truncating the offset. -/
def allocBudget (reqs : List (Nat × Nat)) : Nat :=
  (reqs.map (fun r => r.1 + r.2)).sum

theorem allocRun_spec (reqs : List (Nat × Nat)) (impl : GNMImpl)
    (hbase : impl.gpu_memory_base = U32)
    (halign : ∀ r ∈ reqs, ∃ k, k < 32 ∧ r.2 = 2 ^ k)
    (hbudget : impl.gpu_memory_offset + allocBudget reqs ≤ U32) :
    (allocRun impl reqs).2.gpu_memory_base = U32 ∧
    impl.gpu_memory_offset ≤ (allocRun impl reqs).2.gpu_memory_offset ∧
    (∀ p ∈ (allocRun impl reqs).1,
      U32 + impl.gpu_memory_offset ≤ p.1 ∧
      p.1 + p.2.1 ≤ U32 + (allocRun impl reqs).2.gpu_memory_offset ∧
      p.2.2 ∣ p.1) ∧
    List.Pairwise (fun p q => p.1 + p.2.1 ≤ q.1) (allocRun impl reqs).1 := by
  induction reqs generalizing impl with
  | nil =>
    refine ⟨hbase, Nat.le_refl _, ?_, List.Pairwise.nil⟩
    intro p hp
    simp [allocRun] at hp
  | cons r rest ih =>
    obtain ⟨k, hk, hr2⟩ := halign r (List.mem_cons_self r rest)
    have hbudget1 : allocBudget (r :: rest) = r.1 + r.2 + allocBudget rest := by
      simp [allocBudget]
    have hfit : impl.gpu_memory_offset + r.1 + 2 ^ k ≤ U32 := by omega
    have hstep := AllocateMemory_eq impl r.1 k hk (by omega)
    have hbnd := roundUpTo_bounds impl.gpu_memory_offset (2 ^ k) (Nat.two_pow_pos k)
    have hU32 : U32 = 4294967296 := U32_num
    have hU64 : U64 = 18446744073709551616 := U64_num
    set ru := roundUpTo impl.gpu_memory_offset (2 ^ k) with hru
    have haddr : (impl.gpu_memory_base + ru) % U64 = U32 + ru := by
      rw [hbase]
      exact Nat.mod_eq_of_lt (by omega)
    set impl' : GNMImpl := { impl with gpu_memory_offset := ru + r.1 } with himpl'
    have hrunEq : allocRun impl (r :: rest) =
        ((U32 + ru, r.1, r.2) :: (allocRun impl' rest).1, (allocRun impl' rest).2) := by
      show (let step := impl.AllocateMemory r.1 r.2
            let restRun := allocRun step.2 rest
            ((step.1, r.1, r.2) :: restRun.1, restRun.2)) = _
      rw [hr2, hstep]
      simp only [haddr]
    have hih := ih impl' (by simp [himpl', hbase])
      (fun q hq => halign q (List.mem_cons_of_mem r hq))
      (by simp only [himpl']; omega)
    rw [hrunEq]
    dsimp only
    obtain ⟨ihbase, ihmono, ihmem, ihpw⟩ := hih
    have hoff' : impl'.gpu_memory_offset = ru + r.1 := rfl
    refine ⟨ihbase, by omega, ?_, ?_⟩
    · intro p hp
      rcases List.mem_cons.mp hp with hp | hp
      · subst hp
        dsimp only
        refine ⟨by omega, by omega, ?_⟩
        rw [hr2]
        have hdvd32 : (2 ^ k : Nat) ∣ U32 := by
          unfold U32
          exact pow_dvd_pow 2 (by omega)
        exact Nat.dvd_add hdvd32 (hru ▸ dvd_roundUpTo impl.gpu_memory_offset (2 ^ k))
      · obtain ⟨hq1, hq2, hq3⟩ := ihmem p hp
        exact ⟨by omega, by omega, hq3⟩
    · refine List.Pairwise.cons ?_ ihpw
      intro q hq
      obtain ⟨hq1, _, _⟩ := ihmem q hq
      dsimp only
      omega

/-- A recorded command buffer handle (`PS5CommandBuffer`); its internals live
outside this embedding. -/
structure PS5CommandBuffer where
  id : Nat
deriving Repr, DecidableEq

/-- Observable effects of the GNM wrapper: a command-buffer submission or a
present of a color buffer at given dimensions. -/
inductive GfxEvent where
  | submitted : GfxEvent
  | presented : Nat → Nat → Nat → GfxEvent
deriving Repr, DecidableEq

/-- `GNMWrapper` (gnm_wrapper.cpp): pimpl state plus the `initialized_` flag. -/
structure GNMWrapper where
  impl : GNMImpl
  initialized : Bool
deriving Repr, DecidableEq

/-- A freshly constructed `GNMWrapper`. -/
def GNMWrapper.mk0 : GNMWrapper :=
  { impl := GNMImpl.initImpl, initialized := false }

/-- `GNMWrapper::InitializeDevice`, development-mode branch: handles are set
to the placeholder `1` and the call reports success. -/
def GNMWrapper.InitializeDevice (w : GNMWrapper) : Bool × GNMWrapper :=
  (true, { w with impl := { w.impl with device_handle := 1, context_handle := 1 } })

/-- `GNMWrapper::CreateCommandQueue`, development-mode branch. -/
def GNMWrapper.CreateCommandQueue (w : GNMWrapper) : Bool × GNMWrapper :=
  (true, { w with impl := { w.impl with command_queue_handle := 1 } })

/-- `GNMWrapper::Initialize` (gnm_wrapper.cpp, lines 48-69). -/
def GNMWrapper.InitializeWrapper (w : GNMWrapper) : Bool × GNMWrapper :=
  if w.initialized then (true, w)
  else
    let d := w.InitializeDevice
    if !d.1 then (false, d.2)
    else
      let q := d.2.CreateCommandQueue
      if !q.1 then (false, q.2)
      else (true, { q.2 with initialized := true })

/-- `GNMWrapper::Shutdown` (gnm_wrapper.cpp, lines 71-85): destroy the
command queue, shut the device down, clear the flag. -/
def GNMWrapper.ShutdownWrapper (w : GNMWrapper) : GNMWrapper :=
  if !w.initialized then w
  else
    { w with
      impl := { w.impl with
                  command_queue_handle := 0, device_handle := 0, context_handle := 0 }
      initialized := false }

/-- `GNMWrapper::AllocateGPUMemory`: both build modes fall through to the
development allocator. -/
def GNMWrapper.AllocateGPUMemory (w : GNMWrapper) (size alignment : Nat) :
    Nat × GNMWrapper :=
  let step := w.impl.AllocateMemory size alignment
  (step.1, { w with impl := step.2 })

/-- `GNMWrapper::FreeGPUMemory`: a no-op in development mode. -/
def GNMWrapper.FreeGPUMemory (w : GNMWrapper) (address : Nat) : GNMWrapper := w

/-- `GNMWrapper::SubmitCommandBuffer`: a null command buffer returns at once;
otherwise the buffer is handed to the GPU (a log in development mode). -/
def GNMWrapper.SubmitCommandBuffer (w : GNMWrapper) (cmd_buffer : Option PS5CommandBuffer) :
    GNMWrapper × List GfxEvent :=
  match cmd_buffer with
  | none => (w, [])
  | some _ => (w, [GfxEvent.submitted])

/-- `GNMWrapper::Present`: reports success for every color buffer address and
dimensions in development mode. -/
def GNMWrapper.Present (w : GNMWrapper) (color_buffer_addr width height : Nat) :
    Bool × List GfxEvent :=
  (true, [GfxEvent.presented color_buffer_addr width height])

/-- C1, counterexample: with the power-of-two alignment 1, after an
allocation of `2 ^ 32` bytes the next one-byte allocation returns the very
first address again (the 32-bit mask `~(alignment - 1)` truncates the 64-bit
offset), the offset decreases, and the returned address is not the base plus
the rounded-up offset — contradicting the claimed address formula, offset
monotonicity, and non-overlap of positive-size allocations. -/
theorem C1_bump_allocator_counterexample :
    ((GNMImpl.initImpl.AllocateMemory (2 ^ 32) 1).2.AllocateMemory 1 1).1 =
        (GNMImpl.initImpl.AllocateMemory (2 ^ 32) 1).1 ∧
    ((GNMImpl.initImpl.AllocateMemory (2 ^ 32) 1).2.AllocateMemory 1 1).2.gpu_memory_offset <
        (GNMImpl.initImpl.AllocateMemory (2 ^ 32) 1).2.gpu_memory_offset ∧
    ((GNMImpl.initImpl.AllocateMemory (2 ^ 32) 1).2.AllocateMemory 1 1).1 ≠
        (GNMImpl.initImpl.AllocateMemory (2 ^ 32) 1).2.gpu_memory_base +
          roundUpTo (GNMImpl.initImpl.AllocateMemory (2 ^ 32) 1).2.gpu_memory_offset 1 := by
  decide

/-- C1 (amended): the development-mode GPU allocator is a bump allocator as
claimed provided the cumulative footprint (sizes plus alignments) stays at or
below `2 ^ 32`, so that the 32-bit alignment mask never truncates the 64-bit
offset: each call returns `gpu_memory_base` plus the offset rounded up to the
requested power-of-two alignment, the returned address is aligned, the offset
never decreases and advances past the allocation, `FreeGPUMemory` changes no
state, and the recorded allocations are pairwise non-overlapping. -/
theorem C1_bump_allocator_amended :
    (∀ (impl : GNMImpl) (size k : Nat), k < 32 →
      impl.gpu_memory_base = U32 →
      impl.gpu_memory_offset + size + 2 ^ k ≤ U32 →
      (impl.AllocateMemory size (2 ^ k)).1 =
          impl.gpu_memory_base + roundUpTo impl.gpu_memory_offset (2 ^ k) ∧
      2 ^ k ∣ (impl.AllocateMemory size (2 ^ k)).1 ∧
      impl.gpu_memory_offset ≤ (impl.AllocateMemory size (2 ^ k)).2.gpu_memory_offset ∧
      (impl.AllocateMemory size (2 ^ k)).2.gpu_memory_offset =
          roundUpTo impl.gpu_memory_offset (2 ^ k) + size) ∧
    (∀ (w : GNMWrapper) (address : Nat), w.FreeGPUMemory address = w) ∧
    (∀ reqs : List (Nat × Nat),
      (∀ r ∈ reqs, ∃ k, k < 32 ∧ r.2 = 2 ^ k) →
      allocBudget reqs ≤ U32 →
      (∀ p ∈ (allocRun GNMImpl.initImpl reqs).1, p.2.2 ∣ p.1) ∧
      List.Pairwise (fun p q => p.1 + p.2.1 ≤ q.1) (allocRun GNMImpl.initImpl reqs).1 ∧
      List.Pairwise
        (fun p q => 0 < p.2.1 → 0 < q.2.1 → p.1 + p.2.1 ≤ q.1 ∨ q.1 + q.2.1 ≤ p.1)
        (allocRun GNMImpl.initImpl reqs).1) := by
  refine ⟨?_, ?_, ?_⟩
  · intro impl size k hk hbase hfit
    have hstep := AllocateMemory_eq impl size k hk hfit
    have hbnd := roundUpTo_bounds impl.gpu_memory_offset (2 ^ k) (Nat.two_pow_pos k)
    have hU32 : U32 = 4294967296 := U32_num
    have hU64 : U64 = 18446744073709551616 := U64_num
    have h1 : (1:Nat) ≤ 2 ^ k := Nat.one_le_two_pow
    have haddr : (impl.gpu_memory_base + roundUpTo impl.gpu_memory_offset (2 ^ k)) % U64 =
        impl.gpu_memory_base + roundUpTo impl.gpu_memory_offset (2 ^ k) := by
      rw [hbase]
      exact Nat.mod_eq_of_lt (by omega)
    rw [hstep]
    dsimp only
    rw [haddr]
    refine ⟨rfl, ?_, by omega, rfl⟩
    rw [hbase]
    have hdvd32 : (2 ^ k : Nat) ∣ U32 := by
      unfold U32
      exact pow_dvd_pow 2 (by omega)
    exact Nat.dvd_add hdvd32 (dvd_roundUpTo _ _)
  · intro w address
    rfl
  · intro reqs halign hbudget
    have hbase0 : GNMImpl.initImpl.gpu_memory_base = U32 := by decide
    have hoff0 : GNMImpl.initImpl.gpu_memory_offset = 0 := rfl
    have hspec := allocRun_spec reqs GNMImpl.initImpl hbase0 halign (by omega)
    obtain ⟨-, -, hmem, hpw⟩ := hspec
    refine ⟨fun p hp => (hmem p hp).2.2, hpw, ?_⟩
    exact hpw.imp (fun h _ _ => Or.inl h)

/-- C1 witness: the amended theorem applied to a concrete single allocation
of 100 bytes at alignment 256 and to the concrete request list
`[(100, 256), (50, 16)]`. -/
theorem C1_bump_allocator_witness :
    (GNMImpl.initImpl.AllocateMemory 100 (2 ^ 8)).1 =
        GNMImpl.initImpl.gpu_memory_base +
          roundUpTo GNMImpl.initImpl.gpu_memory_offset (2 ^ 8) ∧
    List.Pairwise (fun p q => p.1 + p.2.1 ≤ q.1)
      (allocRun GNMImpl.initImpl [(100, 256), (50, 16)]).1 := by
  constructor
  · exact (C1_bump_allocator_amended.1 GNMImpl.initImpl 100 8 (by decide)
      (by decide) (by decide)).1
  · refine (C1_bump_allocator_amended.2.2 [(100, 256), (50, 16)] ?_ (by decide)).2.1
    intro r hr
    rcases List.mem_cons.mp hr with h | h
    · exact ⟨8, by norm_num, by subst h; norm_num⟩
    · rcases List.mem_cons.mp h with h2 | h2
      · exact ⟨4, by norm_num, by subst h2; norm_num⟩
      · simp at h2

/-- A frame buffer record (`PS5Renderer::FrameBuffer`). -/
structure FrameBuffer where
  color_buffer_addr : Nat
  depth_buffer_addr : Nat
  width : Nat
  height : Nat
deriving Repr, DecidableEq

/-- `PS5Renderer::MAX_FRAME_BUFFERS`: triple buffering. -/
def MAX_FRAME_BUFFERS : Nat := 3

/-- `PS5Renderer` state (ps5_renderer.cpp and its header): the 32-bit frame
counter `current_frame_`, the index `current_frame_buffer_`, the three frame
buffers, and the owned GNM wrapper and command buffer (null until created). -/
structure PS5Renderer where
  initialized : Bool
  display_width : Nat
  display_height : Nat
  current_frame : Nat
  current_frame_buffer : Nat
  frame_buffers : Fin MAX_FRAME_BUFFERS → FrameBuffer
  gnm_wrapper : Option GNMWrapper
  command_buffer : Option PS5CommandBuffer

/-- The freshly constructed `PS5Renderer`: 1920x1080, counter and index zero,
no subsystems yet.  The C++ constructor leaves the frame-buffer array
default-initialized; its contents are taken as zero here (no theorem below
depends on them before `CreateFramebuffers`). -/
def PS5Renderer.mk0 : PS5Renderer :=
  { initialized := false
    display_width := 1920
    display_height := 1080
    current_frame := 0
    current_frame_buffer := 0
    frame_buffers := fun _ => { color_buffer_addr := 0, depth_buffer_addr := 0
                                width := 0, height := 0 }
    gnm_wrapper := none
    command_buffer := none }

/-- `PS5Renderer::BeginFrame` (ps5_renderer.cpp, lines 192-199): increment
the 32-bit frame counter and set the index to the counter modulo
`MAX_FRAME_BUFFERS`; the command buffer's `Begin` holds no modelled state. -/
def PS5Renderer.BeginFrame (r : PS5Renderer) : PS5Renderer :=
  { r with
    current_frame := (r.current_frame + 1) % U32
    current_frame_buffer := ((r.current_frame + 1) % U32) % MAX_FRAME_BUFFERS }

/-- `PS5Renderer::SubmitCommandBuffer` (ps5_renderer.cpp, lines 256-260):
forward to the GNM wrapper when both the wrapper and the buffer are
non-null. -/
def PS5Renderer.SubmitCommandBuffer (r : PS5Renderer)
    (cmd_buffer : Option PS5CommandBuffer) : PS5Renderer × List GfxEvent :=
  match r.gnm_wrapper, cmd_buffer with
  | some w, some cb =>
    let sub := w.SubmitCommandBuffer (some cb)
    ({ r with gnm_wrapper := some sub.1 }, sub.2)
  | _, _ => (r, [])

/-- `PS5Renderer::Present` (ps5_renderer.cpp, lines 207-218): submit the
command buffer, then present the color buffer of the frame buffer at the
current index.  C++ indexes `frame_buffers_[current_frame_buffer_]` directly;
the `% MAX_FRAME_BUFFERS` here only totalizes the access (every reachable
index is already below `MAX_FRAME_BUFFERS`). -/
def PS5Renderer.Present (r : PS5Renderer) : PS5Renderer × List GfxEvent :=
  let submitStep :=
    match r.command_buffer with
    | some cb => r.SubmitCommandBuffer (some cb)
    | none => (r, [])
  let presentEvents :=
    match submitStep.1.gnm_wrapper with
    | some w =>
      (w.Present
        (submitStep.1.frame_buffers
          ⟨submitStep.1.current_frame_buffer % MAX_FRAME_BUFFERS,
            Nat.mod_lt _ (by decide)⟩).color_buffer_addr
        submitStep.1.display_width submitStep.1.display_height).2
    | none => []
  (submitStep.1, submitStep.2 ++ presentEvents)

/-- `n` successive `BeginFrame` calls. -/
def beginFrames (r : PS5Renderer) : Nat → PS5Renderer
  | 0 => r
  | n + 1 => (beginFrames r n).BeginFrame

theorem beginFrames_counter (r : PS5Renderer) (h : r.current_frame < U32) (n : Nat) :
    (beginFrames r n).current_frame = (r.current_frame + n) % U32 := by
  induction n with
  | zero =>
    show r.current_frame = (r.current_frame + 0) % U32
    rw [Nat.add_zero]
    exact (Nat.mod_eq_of_lt h).symm
  | succ n ih =>
    have hstep : (beginFrames r (n + 1)).current_frame =
        ((beginFrames r n).current_frame + 1) % U32 := rfl
    rw [hstep, ih, Nat.mod_add_mod, Nat.add_assoc]

theorem beginFrames_index (r : PS5Renderer) (n : Nat) :
    (beginFrames r (n + 1)).current_frame_buffer =
      (beginFrames r (n + 1)).current_frame % MAX_FRAME_BUFFERS := rfl

/-- C2, counterexample: `current_frame_` is a 32-bit counter, so after
`2 ^ 32 - 1` calls to `BeginFrame` the index is 0 (`2 ^ 32 - 1` is divisible
by 3), and the next call wraps the counter to 0, landing on index 0 again:
two consecutive frames use the same frame buffer, so consecutive frames do
not always cycle through the three frame buffers. -/
theorem C2_triple_buffer_counterexample :
    (beginFrames PS5Renderer.mk0 (U32 - 1)).current_frame_buffer = 0 ∧
    (beginFrames PS5Renderer.mk0 U32).current_frame_buffer = 0 ∧
    (beginFrames PS5Renderer.mk0 U32).current_frame_buffer ≠
      ((beginFrames PS5Renderer.mk0 (U32 - 1)).current_frame_buffer + 1) %
        MAX_FRAME_BUFFERS := by
  have hU32 : U32 = 4294967296 := U32_num
  have hlt : PS5Renderer.mk0.current_frame < U32 := by
    show 0 < U32
    omega
  have hsplit1 : U32 - 1 = (U32 - 2) + 1 := by omega
  have hsplit2 : U32 = (U32 - 1) + 1 := by omega
  have hc1 : (beginFrames PS5Renderer.mk0 (U32 - 1)).current_frame = U32 - 1 := by
    rw [beginFrames_counter PS5Renderer.mk0 hlt (U32 - 1)]
    show (0 + (U32 - 1)) % U32 = U32 - 1
    rw [Nat.zero_add]
    exact Nat.mod_eq_of_lt (by omega)
  have hc2 : (beginFrames PS5Renderer.mk0 U32).current_frame = 0 := by
    rw [beginFrames_counter PS5Renderer.mk0 hlt U32]
    show (0 + U32) % U32 = 0
    rw [Nat.zero_add, Nat.mod_self]
  have hi1 : (beginFrames PS5Renderer.mk0 (U32 - 1)).current_frame_buffer = 0 := by
    rw [hsplit1, beginFrames_index, ← hsplit1, hc1, hU32]
    norm_num [MAX_FRAME_BUFFERS]
  have hi2 : (beginFrames PS5Renderer.mk0 U32).current_frame_buffer = 0 := by
    rw [hsplit2, beginFrames_index, ← hsplit2, hc2]
    norm_num [MAX_FRAME_BUFFERS]
  refine ⟨hi1, hi2, ?_⟩
  rw [hi1, hi2]
  norm_num [MAX_FRAME_BUFFERS]

/-- C2 (amended): frame management is triple-buffered as claimed —
`MAX_FRAME_BUFFERS` is 3, `BeginFrame` increments the 32-bit frame counter
and sets the index to the counter modulo 3, the index is always below 3, and
`Present` presents the color buffer of the frame buffer at the current index
— with one proviso: consecutive frames cycle through the three frame buffers
only while the 32-bit counter has not wrapped (fewer than `2 ^ 32`
`BeginFrame` calls); at the wrap the same index repeats. -/
theorem C2_triple_buffer_amended :
    MAX_FRAME_BUFFERS = 3 ∧
    (∀ r : PS5Renderer, (r.BeginFrame).current_frame = (r.current_frame + 1) % U32) ∧
    (∀ r : PS5Renderer, (r.BeginFrame).current_frame_buffer =
        (r.BeginFrame).current_frame % MAX_FRAME_BUFFERS) ∧
    (∀ r : PS5Renderer, (r.BeginFrame).current_frame_buffer < 3) ∧
    (∀ n : Nat, n + 1 < U32 →
      (beginFrames PS5Renderer.mk0 (n + 1)).current_frame_buffer =
        ((beginFrames PS5Renderer.mk0 n).current_frame_buffer + 1) % 3) ∧
    (∀ (r : PS5Renderer) (w : GNMWrapper), r.gnm_wrapper = some w →
      (r.Present).2 =
        (if r.command_buffer.isSome then [GfxEvent.submitted] else []) ++
        [GfxEvent.presented
          (r.frame_buffers ⟨r.current_frame_buffer % MAX_FRAME_BUFFERS,
            Nat.mod_lt _ (by decide)⟩).color_buffer_addr
          r.display_width r.display_height]) := by
  have hidx : ∀ m : Nat, m < U32 →
      (beginFrames PS5Renderer.mk0 m).current_frame_buffer = m % 3 := by
    intro m hm
    match m with
    | 0 => rfl
    | j + 1 =>
      rw [beginFrames_index, beginFrames_counter PS5Renderer.mk0 (by
        show 0 < U32
        rw [U32_num]
        norm_num) (j + 1)]
      show (0 + (j + 1)) % U32 % MAX_FRAME_BUFFERS = (j + 1) % 3
      rw [Nat.zero_add, Nat.mod_eq_of_lt hm]
      rfl
  refine ⟨rfl, fun r => rfl, fun r => rfl, ?_, ?_, ?_⟩
  · intro r
    show ((r.current_frame + 1) % U32) % MAX_FRAME_BUFFERS < 3
    exact Nat.mod_lt _ (by decide)
  · intro n hn
    rw [hidx (n + 1) hn, hidx n (by omega)]
    omega
  · intro r w hw
    obtain ⟨ini, dw, dh, cf, cfb, fbs, gw, cb⟩ := r
    simp only at hw
    subst hw
    cases cb with
    | none => rfl
    | some c => rfl

/-- C2 witness: the amended theorem at concrete inputs — the sixth frame uses
the buffer after the fifth frame's, and a renderer holding a wrapper, no
command buffer, index 0 and a color buffer at address 7 presents address 7 at
1920x1080. -/
theorem C2_triple_buffer_witness :
    (beginFrames PS5Renderer.mk0 6).current_frame_buffer =
      ((beginFrames PS5Renderer.mk0 5).current_frame_buffer + 1) % 3 ∧
    (PS5Renderer.Present
      { PS5Renderer.mk0 with
          gnm_wrapper := some GNMWrapper.mk0
          frame_buffers := fun _ => { color_buffer_addr := 7, depth_buffer_addr := 8
                                      width := 1920, height := 1080 } }).2 =
      [GfxEvent.presented 7 1920 1080] := by
  constructor
  · exact C2_triple_buffer_amended.2.2.2.2.1 5 (by decide)
  · have h := C2_triple_buffer_amended.2.2.2.2.2
      { PS5Renderer.mk0 with
          gnm_wrapper := some GNMWrapper.mk0
          frame_buffers := fun _ => { color_buffer_addr := 7, depth_buffer_addr := 8
                                      width := 1920, height := 1080 } }
      GNMWrapper.mk0 rfl
    simpa using h

/-- C8: command-buffer submission is a pure pass-through —
`PS5Renderer::SubmitCommandBuffer` leaves the whole renderer state (frame
counter, current frame-buffer index, frame buffers, wrapper and its allocator
offset) unchanged, and `GNMWrapper::SubmitCommandBuffer` with a null command
buffer returns immediately with no state change and no effect, while a
non-null buffer is forwarded unchanged. -/
theorem C8_submit_passthrough :
    (∀ (r : PS5Renderer) (cb : Option PS5CommandBuffer),
      (r.SubmitCommandBuffer cb).1.current_frame = r.current_frame ∧
      (r.SubmitCommandBuffer cb).1.current_frame_buffer = r.current_frame_buffer ∧
      (r.SubmitCommandBuffer cb).1.frame_buffers = r.frame_buffers ∧
      ((r.SubmitCommandBuffer cb).1.gnm_wrapper.map
          (fun w => w.impl.gpu_memory_offset)) =
        (r.gnm_wrapper.map (fun w => w.impl.gpu_memory_offset)) ∧
      (r.SubmitCommandBuffer cb).1 = r) ∧
    (∀ w : GNMWrapper, w.SubmitCommandBuffer none = (w, [])) ∧
    (∀ (w : GNMWrapper) (cb : PS5CommandBuffer),
      w.SubmitCommandBuffer (some cb) = (w, [GfxEvent.submitted])) := by
  refine ⟨?_, fun w => rfl, fun w cb => rfl⟩
  intro r cb
  obtain ⟨ini, dw, dh, cf, cfb, fbs, gw, cbx⟩ := r
  cases gw <;> cases cb <;> exact ⟨rfl, rfl, rfl, rfl, rfl⟩

/-- C7: in development mode (no `PS5_BUILD`) every vendor-SDK-backed graphics
operation succeeds with placeholder values: `InitializeDevice` and
`CreateCommandQueue` unconditionally set the device, context, and
command-queue handles to 1 and return true, so `GNMWrapper::Initialize`
always returns true, and `Present` returns true for every color buffer
address and dimensions. -/
theorem C7_dev_mode_placeholders :
    (∀ w : GNMWrapper, (w.InitializeDevice).1 = true ∧
      (w.InitializeDevice).2.impl.device_handle = 1 ∧
      (w.InitializeDevice).2.impl.context_handle = 1) ∧
    (∀ w : GNMWrapper, (w.CreateCommandQueue).1 = true ∧
      (w.CreateCommandQueue).2.impl.command_queue_handle = 1) ∧
    (∀ w : GNMWrapper, (w.InitializeWrapper).1 = true) ∧
    (∀ (w : GNMWrapper) (addr width height : Nat),
      (w.Present addr width height).1 = true) := by
  refine ⟨fun w => ⟨rfl, rfl, rfl⟩, fun w => ⟨rfl, rfl⟩, ?_, fun w a b c => rfl⟩
  intro w
  by_cases h : w.initialized <;>
    simp [GNMWrapper.InitializeWrapper, h, GNMWrapper.InitializeDevice,
      GNMWrapper.CreateCommandQueue]

/-- `PS5Application` state (ps5_application.cpp): the lifecycle flags, the
emulation state machine, the paths, and whether the `eden_core_` subsystem
object exists (non-null pointer). -/
structure PS5Application where
  initialized : Bool
  shutdown_requested : Bool
  game_loaded : Bool
  emulation_running : Bool
  emulation_paused : Bool
  hasEdenCore : Bool
  game_path : String
  config_path : String
deriving Repr, DecidableEq

/-- The freshly constructed `PS5Application`: all flags false, the default
config path. -/
def PS5Application.mk0 : PS5Application :=
  { initialized := false, shutdown_requested := false, game_loaded := false
    emulation_running := false, emulation_paused := false, hasEdenCore := false
    game_path := ("")
    config_path := ("/data/eden/config") }

/-- `PS5Application::LoadGame` (lines 269-286); `coreLoadOk` is the result of
the external `EdenCoreIntegration::LoadGame` call. -/
def PS5Application.LoadGame (p : PS5Application) (path : String) (coreLoadOk : Bool) :
    Bool × PS5Application :=
  if !p.hasEdenCore then (false, p)
  else if coreLoadOk then (true, { p with game_loaded := true, game_path := path })
  else (false, p)

/-- `PS5Application::StopEmulation` (lines 342-355). -/
def PS5Application.StopEmulation (p : PS5Application) : PS5Application :=
  if !p.emulation_running then p
  else { p with emulation_running := false, emulation_paused := false }

/-- `PS5Application::UnloadGame` (lines 288-306): stop emulation first, then
drop the game and clear its path. -/
def PS5Application.UnloadGame (p : PS5Application) : PS5Application :=
  if !p.game_loaded then p
  else
    let p1 := if p.emulation_running then p.StopEmulation else p
    { p1 with game_loaded := false, game_path := ("") }

/-- `PS5Application::StartEmulation` (lines 308-322); `coreStartOk` is the
result of the external `EdenCoreIntegration::StartEmulation` call. -/
def PS5Application.StartEmulation (p : PS5Application) (coreStartOk : Bool) :
    PS5Application :=
  if !p.game_loaded || p.emulation_running then p
  else if p.hasEdenCore && coreStartOk then
    { p with emulation_running := true, emulation_paused := false }
  else p

/-- `PS5Application::PauseEmulation` (lines 324-331). -/
def PS5Application.PauseEmulation (p : PS5Application) : PS5Application :=
  if !p.emulation_running || p.emulation_paused then p
  else { p with emulation_paused := true }

/-- `PS5Application::ResumeEmulation` (lines 333-340). -/
def PS5Application.ResumeEmulation (p : PS5Application) : PS5Application :=
  if !p.emulation_running || !p.emulation_paused then p
  else { p with emulation_paused := false }

/-- `PS5Application::Shutdown` (lines 53-77): stop emulation, unload the
game, save settings, shut the subsystems down, clear the flag; a no-op when
not initialized. -/
def PS5Application.ShutdownApp (p : PS5Application) : PS5Application :=
  if !p.initialized then p
  else
    let p1 := if p.emulation_running then p.StopEmulation else p
    let p2 := if p1.game_loaded then p1.UnloadGame else p1
    { p2 with hasEdenCore := false, initialized := false }

/-- `PS5Application::Initialize` (lines 25-51): an early return when already
initialized; otherwise process the command line, then initialize the
subsystems.  `gameArg`/`configArg` are the parsed `--game`/`--config`
values, `helpArg` whether `--help` was passed (making `ProcessCommandLine`
return false), `subsysOk` the outcome of `InitializeSubsystems` (it depends
on subsystem sources outside src_ps5), and `edenCreated` whether the
`eden_core_` object was constructed along the way. -/
def PS5Application.InitializeApp (p : PS5Application) (gameArg configArg : Option String)
    (helpArg subsysOk edenCreated : Bool) : Bool × PS5Application :=
  if p.initialized then (true, p)
  else
    let p1 := { p with game_path := gameArg.getD p.game_path
                       config_path := configArg.getD p.config_path }
    if helpArg then (false, p1)
    else
      let p2 := { p1 with hasEdenCore := edenCreated }
      if !subsysOk then (false, p2)
      else (true, { p2 with initialized := true })

/-- Subsystem calls observable in one `MainLoop` iteration. -/
inductive LoopEv where
  | inputUpdate : LoopEv
  | frontendUpdate : LoopEv
  | coreUpdate : LoopEv
  | beginFrame : LoopEv
  | coreRender : LoopEv
  | frontendRender : LoopEv
  | endFrame : LoopEv
  | present : LoopEv
deriving Repr, DecidableEq

/-- Presence of the optional subsystem pointers the main loop checks. -/
structure LoopCtx where
  hasInput : Bool
  hasFrontend : Bool
  hasCore : Bool
  hasRenderer : Bool
deriving Repr, DecidableEq

/-- The body of one `PS5Application::MainLoop` iteration as the ordered list
of subsystem calls it makes (ps5_application.cpp, lines 211-245), given the
emulation flags; the FPS bookkeeping and the frame limiter make no subsystem
calls. -/
def mainLoopIteration (ctx : LoopCtx) (running paused : Bool) : List LoopEv :=
  (if ctx.hasInput then [LoopEv.inputUpdate] else []) ++
  (if ctx.hasFrontend then [LoopEv.frontendUpdate] else []) ++
  (if ctx.hasCore && running && !paused then [LoopEv.coreUpdate] else []) ++
  (if ctx.hasRenderer then
    [LoopEv.beginFrame] ++
    (if ctx.hasCore && running then [LoopEv.coreRender] else []) ++
    (if ctx.hasFrontend then [LoopEv.frontendRender] else []) ++
    [LoopEv.endFrame, LoopEv.present]
  else [])

/-- A `MainLoop` step: no iteration runs once shutdown has been requested
(ps5_application.cpp, line 211). -/
def mainLoopStep (shutdown_requested : Bool) (ctx : LoopCtx) (running paused : Bool) :
    Option (List LoopEv) :=
  if shutdown_requested then none
  else some (mainLoopIteration ctx running paused)

/-- C4: while shutdown has not been requested, every `MainLoop` iteration
with all subsystems present updates input, then the frontend, then the Eden
core (only when running and not paused), then renders: `BeginFrame`, the core
(only when running), the frontend, `EndFrame`, `Present` — in exactly that
order; once shutdown is requested no iteration runs. -/
theorem C4_main_loop_order :
    (∀ running paused : Bool,
      mainLoopStep false ⟨true, true, true, true⟩ running paused =
        some ([LoopEv.inputUpdate, LoopEv.frontendUpdate] ++
          (if running && !paused then [LoopEv.coreUpdate] else []) ++
          ([LoopEv.beginFrame] ++
            (if running then [LoopEv.coreRender] else []) ++
            [LoopEv.frontendRender, LoopEv.endFrame, LoopEv.present]))) ∧
    (∀ (ctx : LoopCtx) (running paused : Bool),
      mainLoopStep true ctx running paused = none) := by
  constructor
  · intro running paused
    cases running <;> cases paused <;> rfl
  · intro ctx running paused
    rfl

/-- `target_frame_time` of the `MainLoop` frame limiter, in microseconds
(ps5_application.cpp, line 261): ~60 FPS. -/
def target_frame_time : Nat := 16667

/-- The sleep the frame limiter performs at the end of a `MainLoop`
iteration (ps5_application.cpp, lines 258-265), as a function of the
iteration's measured work duration in microseconds. -/
def frameLimiterSleep (frame_duration : Nat) : Nat :=
  if frame_duration < target_frame_time then target_frame_time - frame_duration
  else 0

/-- C5: an iteration whose measured duration is below the 16667 microsecond
target sleeps for exactly the difference, an iteration at or above the target
does not sleep, and in both cases the iteration (work plus sleep) lasts at
least the target frame time. -/
theorem C5_frame_pacing :
    ∀ frame_duration : Nat,
      (frame_duration < 16667 →
        frameLimiterSleep frame_duration = 16667 - frame_duration) ∧
      (16667 ≤ frame_duration → frameLimiterSleep frame_duration = 0) ∧
      16667 ≤ frame_duration + frameLimiterSleep frame_duration := by
  intro d
  unfold frameLimiterSleep target_frame_time
  split_ifs with h <;> omega

/-- C5 witness: the frame-pacing theorem at the concrete durations 10000 and
20000 microseconds. -/
theorem C5_frame_pacing_witness :
    frameLimiterSleep 10000 = 6667 ∧ frameLimiterSleep 20000 = 0 ∧
    16667 ≤ 20000 + frameLimiterSleep 20000 :=
  ⟨(C5_frame_pacing 10000).1 (by decide), (C5_frame_pacing 20000).2.1 (by decide),
    (C5_frame_pacing 20000).2.2⟩

/-- The emulation state-machine invariant: paused implies running, and
running implies a loaded game. -/
def EmuInv (p : PS5Application) : Prop :=
  (p.emulation_paused = true → p.emulation_running = true) ∧
  (p.emulation_running = true → p.game_loaded = true)

/-- C9: every public operation of `PS5Application` (`LoadGame`, `UnloadGame`,
`StartEmulation`, `PauseEmulation`, `ResumeEmulation`, `StopEmulation`,
`Shutdown`) preserves the invariant that paused implies running and running
implies a loaded game, for every outcome of the external Eden-core calls. -/
theorem C9_emulation_invariant :
    ∀ p : PS5Application, EmuInv p →
      (∀ (path : String) (coreLoadOk : Bool), EmuInv (p.LoadGame path coreLoadOk).2) ∧
      EmuInv p.UnloadGame ∧
      (∀ coreStartOk : Bool, EmuInv (p.StartEmulation coreStartOk)) ∧
      EmuInv p.PauseEmulation ∧
      EmuInv p.ResumeEmulation ∧
      EmuInv p.StopEmulation ∧
      EmuInv p.ShutdownApp := by
  intro p hp
  obtain ⟨ini, sreq, gl, er, ep, hec, gp, cp⟩ := p
  obtain ⟨h1, h2⟩ := hp
  refine ⟨fun path ok => ?_, ?_, fun ok => ?_, ?_, ?_, ?_, ?_⟩ <;>
    cases gl <;> cases er <;> cases ep <;> cases hec <;> cases ini <;>
      first
        | (cases ok <;>
            simp_all [EmuInv, PS5Application.LoadGame, PS5Application.UnloadGame,
              PS5Application.StartEmulation, PS5Application.PauseEmulation,
              PS5Application.ResumeEmulation, PS5Application.StopEmulation,
              PS5Application.ShutdownApp])
        | simp_all [EmuInv, PS5Application.LoadGame, PS5Application.UnloadGame,
            PS5Application.StartEmulation, PS5Application.PauseEmulation,
            PS5Application.ResumeEmulation, PS5Application.StopEmulation,
            PS5Application.ShutdownApp]

/-- C9 witness: the invariant theorem at the freshly constructed application
(whose invariant holds), for a concrete load and an unload. -/
theorem C9_emulation_invariant_witness :
    EmuInv ((PS5Application.mk0.LoadGame ("game.nsp") true).2) ∧
    EmuInv PS5Application.mk0.UnloadGame := by
  have hinv : EmuInv PS5Application.mk0 :=
    ⟨fun h => Bool.noConfusion h, fun h => Bool.noConfusion h⟩
  exact ⟨(C9_emulation_invariant PS5Application.mk0 hinv).1 ("game.nsp") true,
    (C9_emulation_invariant PS5Application.mk0 hinv).2.1⟩

/-- `PS5AudioManager` state (ps5_audio_manager.cpp): the device lists
modelled by their sizes, default-device presence, 3D-audio availability, and
the open stream count. -/
structure PS5AudioManager where
  initialized : Bool
  output_devices : Nat
  input_devices : Nat
  has_default_output : Bool
  has_default_input : Bool
  is_3d_audio_available : Bool
  streams : Nat
deriving Repr, DecidableEq

/-- The freshly constructed `PS5AudioManager`. -/
def PS5AudioManager.mk0 : PS5AudioManager :=
  { initialized := false, output_devices := 0, input_devices := 0
    has_default_output := false, has_default_input := false
    is_3d_audio_available := false, streams := 0 }

/-- `PS5AudioManager::EnumerateAudioDevices` (lines 124-168),
development-mode branch: clear the lists, create one mock output and one mock
input device and make them the defaults; succeeds when the output list is
non-empty. -/
def PS5AudioManager.EnumerateAudioDevices (m : PS5AudioManager) :
    Bool × PS5AudioManager :=
  let m1 := { m with output_devices := 1, input_devices := 1
                     has_default_output := true, has_default_input := true }
  (m1.output_devices != 0, m1)

/-- `PS5AudioManager::Initialize` (lines 35-68), development mode:
`InitializePS5AudioSystem` succeeds, the devices are enumerated, 3D audio is
unavailable, the flag is set. -/
def PS5AudioManager.InitializeAudio (m : PS5AudioManager) : Bool × PS5AudioManager :=
  if m.initialized then (true, m)
  else
    let e := m.EnumerateAudioDevices
    if !e.1 then (false, e.2)
    else (true, { e.2 with is_3d_audio_available := false, initialized := true })

/-- `PS5AudioManager::Shutdown` (lines 70-90): stop and clear the streams,
clean the devices up, clear the flag; a no-op when not initialized. -/
def PS5AudioManager.ShutdownAudio (m : PS5AudioManager) : PS5AudioManager :=
  if !m.initialized then m
  else
    { m with streams := 0, output_devices := 0, input_devices := 0
             has_default_output := false, has_default_input := false
             initialized := false }

/-- C10: for `GNMWrapper`, `PS5AudioManager`, and `PS5Application`,
`Initialize` on an already-initialized object returns true at once without
changing state, `Shutdown` on a non-initialized object returns at once
without changing state, and consequently `Initialize` composed with
`Initialize` equals a single `Initialize`, and likewise for `Shutdown`. -/
theorem C10_init_shutdown_idempotent :
    (∀ w : GNMWrapper, w.initialized = true → w.InitializeWrapper = (true, w)) ∧
    (∀ w : GNMWrapper, w.initialized = false → w.ShutdownWrapper = w) ∧
    (∀ w : GNMWrapper, (w.InitializeWrapper).2.InitializeWrapper = w.InitializeWrapper) ∧
    (∀ w : GNMWrapper, (w.ShutdownWrapper).ShutdownWrapper = w.ShutdownWrapper) ∧
    (∀ m : PS5AudioManager, m.initialized = true → m.InitializeAudio = (true, m)) ∧
    (∀ m : PS5AudioManager, m.initialized = false → m.ShutdownAudio = m) ∧
    (∀ m : PS5AudioManager, (m.InitializeAudio).2.InitializeAudio = m.InitializeAudio) ∧
    (∀ m : PS5AudioManager, (m.ShutdownAudio).ShutdownAudio = m.ShutdownAudio) ∧
    (∀ (p : PS5Application) (ga ca : Option String) (ha so ec : Bool),
      p.initialized = true → p.InitializeApp ga ca ha so ec = (true, p)) ∧
    (∀ p : PS5Application, p.initialized = false → p.ShutdownApp = p) ∧
    (∀ (p : PS5Application) (ga ca : Option String) (ha so ec : Bool),
      (p.InitializeApp ga ca ha so ec).2.InitializeApp ga ca ha so ec =
        p.InitializeApp ga ca ha so ec) ∧
    (∀ p : PS5Application, (p.ShutdownApp).ShutdownApp = p.ShutdownApp) := by
  refine ⟨?_, ?_, ?_, ?_, ?_, ?_, ?_, ?_, ?_, ?_, ?_, ?_⟩
  · intro w h
    simp [GNMWrapper.InitializeWrapper, h]
  · intro w h
    simp [GNMWrapper.ShutdownWrapper, h]
  · intro w
    obtain ⟨wi, ini⟩ := w
    cases ini <;>
      simp [GNMWrapper.InitializeWrapper, GNMWrapper.InitializeDevice,
        GNMWrapper.CreateCommandQueue]
  · intro w
    obtain ⟨wi, ini⟩ := w
    cases ini <;> simp [GNMWrapper.ShutdownWrapper]
  · intro m h
    simp [PS5AudioManager.InitializeAudio, h]
  · intro m h
    simp [PS5AudioManager.ShutdownAudio, h]
  · intro m
    obtain ⟨ini, od, idv, hdo, hdi, av, st⟩ := m
    cases ini <;>
      simp [PS5AudioManager.InitializeAudio, PS5AudioManager.EnumerateAudioDevices]
  · intro m
    obtain ⟨ini, od, idv, hdo, hdi, av, st⟩ := m
    cases ini <;> simp [PS5AudioManager.ShutdownAudio]
  · intro p ga ca ha so ec h
    simp [PS5Application.InitializeApp, h]
  · intro p h
    simp [PS5Application.ShutdownApp, h]
  · intro p ga ca ha so ec
    obtain ⟨ini, sreq, gl, er, ep, hec, gp, cp⟩ := p
    cases ini <;> cases ha <;> cases so <;> cases ga <;> cases ca <;>
      simp [PS5Application.InitializeApp]
  · intro p
    obtain ⟨ini, sreq, gl, er, ep, hec, gp, cp⟩ := p
    cases ini <;>
      simp [PS5Application.ShutdownApp, PS5Application.StopEmulation,
        PS5Application.UnloadGame]

/-- C10 witness: the idempotence theorem at concrete states — an
already-initialized wrapper, the fresh audio manager, and the fresh
application. -/
theorem C10_init_shutdown_idempotent_witness :
    GNMWrapper.InitializeWrapper { impl := GNMImpl.initImpl, initialized := true } =
      (true, { impl := GNMImpl.initImpl, initialized := true }) ∧
    PS5AudioManager.ShutdownAudio PS5AudioManager.mk0 = PS5AudioManager.mk0 ∧
    PS5Application.ShutdownApp PS5Application.mk0 = PS5Application.mk0 :=
  ⟨C10_init_shutdown_idempotent.1 _ rfl,
    C10_init_shutdown_idempotent.2.2.2.2.2.1 _ rfl,
    C10_init_shutdown_idempotent.2.2.2.2.2.2.2.2.2.1 _ rfl⟩

/-- On-the-wire events of one `SendIPCCommand` call. -/
inductive WireEv where
  | sent : String → WireEv
  | received : WireEv
deriving Repr, DecidableEq

/-- Oracle for the socket calls inside one `SendIPCCommand`: whether `send`
succeeds, and the `recv` outcome (`none` a failure, `some s` the received
bytes). -/
structure IPCEnv where
  sendOk : Bool
  recvResult : Option String
deriving Repr, DecidableEq

/-- `EtaHENPlugin::SendIPCCommand` (etahen_plugin.cpp, lines 339-362): refuse
an invalid socket; `send` the command bytes (exactly `command.length()` bytes
of the command text, nothing else); `recv` one response; succeed only when
both calls do.  The third component is the ordered trace of socket
operations performed. -/
def SendIPCCommand (ipc_socket : Int) (command : String) (env : IPCEnv) :
    Bool × Option String × List WireEv :=
  if ipc_socket = -1 then (false, none, [])
  else if !env.sendOk then (false, none, [WireEv.sent command])
  else
    match env.recvResult with
    | none => (false, none, [WireEv.sent command, WireEv.received])
    | some data => (true, some data, [WireEv.sent command, WireEv.received])

/-- The wire format the specification's words describe for a command: some
non-empty encoding of the command's length, followed by the command text. -/
def specLengthFramed (sentBytes command : String) : Prop :=
  ∃ lenBytes : String, 0 < lenBytes.length ∧ sentBytes = lenBytes ++ command

/-- C3, counterexample: `SendIPCCommand` puts exactly the bare command text
on the wire — for the concrete command `GET_VERSION` the single sent payload
is the command itself, which no non-empty length prefix can precede — so the
command is not sent `prefixed by its length` as claimed. -/
theorem C3_ipc_counterexample :
    (SendIPCCommand 3 ("GET_VERSION")
        { sendOk := true, recvResult := some ("1.0") }).2.2 =
      [WireEv.sent ("GET_VERSION")] ++ [WireEv.received] ∧
    ¬ specLengthFramed ("GET_VERSION") ("GET_VERSION") := by
  constructor
  · rfl
  · rintro ⟨pfx, hpos, heq⟩
    have hlen := congrArg String.length heq
    rw [String.length_append] at hlen
    omega

/-- C3 (amended): the protocol is half-duplex as claimed, but unframed — for
every command, `SendIPCCommand` sends the raw command text with no length
prefix, performs at most one send followed by at most one receive (never a
second send before the response), and returns true with the response text on
success and false if the socket is invalid, the send fails, or the receive
fails. -/
theorem C3_ipc_half_duplex_amended :
    ∀ (sock : Int) (command : String) (env : IPCEnv),
      (sock = -1 → SendIPCCommand sock command env = (false, none, [])) ∧
      (sock ≠ -1 → env.sendOk = false →
        SendIPCCommand sock command env = (false, none, [WireEv.sent command])) ∧
      (sock ≠ -1 → env.sendOk = true → env.recvResult = none →
        SendIPCCommand sock command env =
          (false, none, [WireEv.sent command, WireEv.received])) ∧
      (∀ data : String, sock ≠ -1 → env.sendOk = true → env.recvResult = some data →
        SendIPCCommand sock command env =
          (true, some data, [WireEv.sent command, WireEv.received])) ∧
      ((SendIPCCommand sock command env).2.2 = [] ∨
        (SendIPCCommand sock command env).2.2 = [WireEv.sent command] ∨
        (SendIPCCommand sock command env).2.2 =
          [WireEv.sent command, WireEv.received]) := by
  intro sock command env
  refine ⟨?_, ?_, ?_, ?_, ?_⟩
  · intro h
    simp [SendIPCCommand, h]
  · intro h hsend
    simp [SendIPCCommand, h, hsend]
  · intro h hsend hrecv
    simp [SendIPCCommand, h, hsend, hrecv]
  · intro data h hsend hrecv
    simp [SendIPCCommand, h, hsend, hrecv]
  · by_cases h : sock = -1
    · left
      simp [SendIPCCommand, h]
    · cases hsend : env.sendOk
      · right
        left
        simp [SendIPCCommand, h, hsend]
      · cases hrecv : env.recvResult
        · right
          right
          simp [SendIPCCommand, h, hsend, hrecv]
        · right
          right
          simp [SendIPCCommand, h, hsend, hrecv]

/-- C3 witness: the amended theorem at a concrete successful exchange on
socket 3. -/
theorem C3_ipc_half_duplex_witness :
    SendIPCCommand 3 ("PING") { sendOk := true, recvResult := some ("OK") } =
      (true, some ("OK"), [WireEv.sent ("PING"), WireEv.received]) :=
  (C3_ipc_half_duplex_amended 3 ("PING") { sendOk := true, recvResult := some ("OK") }
    ).2.2.2.1 ("OK") (by decide) rfl rfl

/-- Environment oracle for the etaHEN integration (PS5-build connection
path): whether `socket()` and `connect()` succeed, the per-command IPC
behaviour, and the value `getpid()` returns. -/
structure EtaEnv where
  socketOk : Bool
  connectOk : Bool
  ipc : IPCEnv
  pid : Int
deriving Repr, DecidableEq

/-- `EtaHENPlugin` state (etahen_plugin.cpp): the lifecycle and connection
flags and the IPC socket descriptor (-1 when invalid). -/
structure EtaHENPlugin where
  initialized : Bool
  etahen_available : Bool
  connected : Bool
  registered : Bool
  ipc_socket : Int
deriving Repr, DecidableEq

/-- The freshly constructed `EtaHENPlugin`. -/
def EtaHENPlugin.mk0 : EtaHENPlugin :=
  { initialized := false, etahen_available := false, connected := false
    registered := false, ipc_socket := -1 }

/-- `EtaHENPlugin::ConnectToEtaHEN` (etahen_plugin.cpp, lines 143-179),
PS5-build branch: create a socket (descriptor 3 on success; a failed
`socket()` leaves an invalid descriptor, written -1 here), connect to
localhost:9028; on a failed connect, close and reset the descriptor. -/
def EtaHENPlugin.ConnectToEtaHEN (p : EtaHENPlugin) (env : EtaEnv) :
    Bool × EtaHENPlugin :=
  if !env.socketOk then (false, { p with ipc_socket := -1 })
  else if !env.connectOk then (false, { p with ipc_socket := -1 })
  else (true, { p with ipc_socket := 3, connected := true })

/-- `EtaHENPlugin::RegisterWithEtaHEN` (etahen_plugin.cpp, lines 200-222). -/
def EtaHENPlugin.RegisterWithEtaHEN (p : EtaHENPlugin) (env : EtaEnv)
    (plugin_name version : String) : Bool × EtaHENPlugin :=
  if !p.connected then (false, p)
  else
    let r := SendIPCCommand p.ipc_socket
      (("REGISTER_PLUGIN:") ++ plugin_name ++ (":") ++ version) env.ipc
    if r.1 then (true, { p with registered := true })
    else (false, p)

/-- `EtaHENPlugin::Initialize` (etahen_plugin.cpp, lines 49-81): initialize
IPC (it succeeds in both build modes), try to connect, register when
available (a registration failure only logs), and mark the plugin
initialized in every case. -/
def EtaHENPlugin.InitializePlugin (p : EtaHENPlugin) (env : EtaEnv) :
    Bool × EtaHENPlugin :=
  if p.initialized then (true, p)
  else
    let c := p.ConnectToEtaHEN env
    let p1 := { c.2 with etahen_available := c.1 }
    let p2 :=
      if c.1 then
        (p1.RegisterWithEtaHEN env ("Eden Nintendo Switch Emulator") ("1.0.0-PS5")).2
      else p1
    (true, { p2 with initialized := true })

/-- `EtaHENPlugin::RequestJailbreak` (etahen_plugin.cpp, lines 238-260): a
pid of -1 is replaced by `getpid()`. -/
def EtaHENPlugin.RequestJailbreak (p : EtaHENPlugin) (env : EtaEnv) (pid : Int) : Bool :=
  if !p.connected then false
  else
    let pid2 := if pid = -1 then env.pid else pid
    (SendIPCCommand p.ipc_socket (("JAILBREAK:") ++ toString pid2) env.ipc).1

/-- `EtaHENPlugin::EnableDataAccess` (etahen_plugin.cpp, lines 273-284). -/
def EtaHENPlugin.EnableDataAccess (p : EtaHENPlugin) (env : EtaEnv) : Bool :=
  if !p.connected then false
  else (SendIPCCommand p.ipc_socket ("ENABLE_DATA_ACCESS") env.ipc).1

/-- The top-level calls `main` makes (main.cpp, lines 35-110). -/
inductive MainEv where
  | platformInit : MainEv
  | etahenInit : MainEv
  | jailbreakRequest : MainEv
  | enableDataAccess : MainEv
  | createApp : MainEv
  | appInit : MainEv
  | runLoop : MainEv
  | appShutdown : MainEv
  | etahenShutdown : MainEv
  | platformShutdown : MainEv
deriving Repr, DecidableEq

/-- `main` (main.cpp): the ordered top-level calls and the exit code.
`platformOk` is the `PS5System::Initialize` outcome and `appInitOk` the
`PS5Application::Initialize` outcome (both implemented outside the modelled
translation units); a failed etaHEN initialization or a failed jailbreak
request only logs a warning and execution continues. -/
def mainProgram (platformOk : Bool) (env : EtaEnv) (appInitOk : Bool) :
    List MainEv × Int :=
  if !platformOk then ([MainEv.platformInit], -1)
  else
    let e := EtaHENPlugin.mk0.InitializePlugin env
    let jb :=
      if e.2.etahen_available then
        [MainEv.jailbreakRequest] ++
        (if e.2.RequestJailbreak env (-1) then [MainEv.enableDataAccess] else [])
      else []
    let pre := [MainEv.platformInit, MainEv.etahenInit] ++ jb ++
      [MainEv.createApp, MainEv.appInit]
    if !appInitOk then (pre, -1)
    else
      (pre ++ [MainEv.runLoop, MainEv.appShutdown, MainEv.etahenShutdown,
        MainEv.platformShutdown], 0)

/-- C6: failure handling is log-and-continue — `EtaHENPlugin::Initialize`
returns true and marks the plugin initialized for every connection and
registration outcome, and when the platform and application initialize,
`main` proceeds to create, initialize, and run the application whatever the
etaHEN detection and jailbreak outcomes are. -/
theorem C6_log_and_continue :
    (∀ (p : EtaHENPlugin) (env : EtaEnv),
      (p.InitializePlugin env).1 = true ∧
      (p.InitializePlugin env).2.initialized = true) ∧
    (∀ env : EtaEnv,
      MainEv.createApp ∈ (mainProgram true env true).1 ∧
      MainEv.appInit ∈ (mainProgram true env true).1 ∧
      MainEv.runLoop ∈ (mainProgram true env true).1 ∧
      (mainProgram true env true).2 = 0) := by
  refine ⟨?_, ?_⟩
  · intro p env
    by_cases h : p.initialized <;>
      constructor <;> simp [EtaHENPlugin.InitializePlugin, h]
  · intro env
    refine ⟨?_, ?_, ?_, ?_⟩ <;> simp [mainProgram]
